import Mathlib

/-!
Verification of the credit-card transaction repair subsystem of the
`revisao-abias-n8n` repository.

The development shallowly embeds:

* the PL/pgSQL function `fix_credit_card_transactions` (migration
  `20250923150033_…​.sql`, lines 2–93), which scans `poupeja_transactions`
  for credit-card expenses lacking a corresponding row in
  `credit_card_purchases`, migrates each one inside a per-row
  `BEGIN … EXCEPTION` block, and finally recomputes card limits;
* the trigger function `prevent_direct_credit_card_transactions`
  (same migration, lines 96–108), attached by migration
  `20250923150936_…​.sql` as a BEFORE INSERT trigger;
* the Deno request handler `supabase/functions/create-transaction/index.ts`.

PL/pgSQL semantics captured by the embedding: a `BEGIN … EXCEPTION` block
runs inside a subtransaction, so when the handler catches an error every
database change made by the block is rolled back, while assignments to
PL/pgSQL variables (the counters and the error array) performed before the
failing statement are kept.  Sequence allocations are not transactional and
survive the rollback.
-/

namespace Poupeja

/-- `type` column of `poupeja_transactions` (`income` / `expense`). -/
inductive TxnType
| income
| expense
deriving DecidableEq, Repr

/-- `status` column of `credit_card_bills`; `opened` models the SQL string
`'open'`. -/
inductive BillStatus
| opened
| closed
| overdue
| paid
deriving DecidableEq, Repr

/-- A row of `poupeja_transactions`.  Ids are modelled as `Nat` (UUIDs in the
source); `date` is kept as the string the source passes around. -/
structure Txn where
  id : Nat
  type : TxnType
  amount : Int
  date : String
  description : Option String
  category_id : Option Nat
  account_id : Option Nat
  credit_card_id : Option Nat
  user_id : Nat
deriving DecidableEq, Repr

/-- A row of `credit_card_purchases`. -/
structure Purchase where
  id : Nat
  card_id : Nat
  description : String
  amount : Int
  purchase_date : String
  installments : Nat
  installment_amount : Int
  is_installment : Bool
  category_id : Option Nat
  transaction_id : Option Nat
deriving DecidableEq, Repr

/-- A row of `credit_cards` (only the columns the repair routine reads or
writes; `updated_at` is omitted). -/
structure CreditCard where
  id : Nat
  user_id : Nat
  total_limit : Int
  used_limit : Int
  available_limit : Int
deriving DecidableEq, Repr

/-- A row of `credit_card_bills` (only the columns the limit sweep reads). -/
structure Bill where
  id : Nat
  card_id : Nat
  status : BillStatus
  remaining_amount : Int
deriving DecidableEq, Repr

/-- The database state seen by the repair routine.  `nextPurchaseId` models
the id sequence backing `credit_card_purchases.id`; sequences survive
subtransaction rollbacks. -/
structure DB where
  transactions : List Txn
  purchases : List Purchase
  cards : List CreditCard
  bills : List Bill
  nextPurchaseId : Nat
deriving DecidableEq, Repr

/-- `JOIN credit_cards c ON t.credit_card_id = c.id`: the transaction's card
exists.  Card ids are a primary key, so the join yields at most one row. -/
def hasCard (cards : List CreditCard) (t : Txn) : Bool :=
  cards.any fun c => t.credit_card_id == some c.id

/-- `EXISTS (SELECT 1 FROM credit_card_purchases cp WHERE cp.transaction_id = t.id)`. -/
def hasPurchaseFor (purchases : List Purchase) (tid : Nat) : Bool :=
  purchases.any fun p => p.transaction_id == some tid

/-- The scanner predicate of the cursor query (migration lines 19–29):
credit-card expense joined to an existing card, with no corresponding
purchase row. -/
def isFlagged (db : DB) (t : Txn) : Bool :=
  t.type == TxnType.expense && t.credit_card_id.isSome &&
    hasCard db.cards t && !(hasPurchaseFor db.purchases t.id)

/-- The rows the `FOR … LOOP` iterates over.  The cursor snapshot is taken
when the loop opens, so the iteration set is fixed at entry. -/
def flaggedRows (db : DB) : List Txn :=
  db.transactions.filter (isFlagged db)

/-- Failure environment for one run of the repair routine: for each
transaction id, whether the `INSERT`, the `DELETE`, or the
`auto_generate_credit_card_bills` call raises (and with which `SQLERRM`
message), plus the effect of a successful bill-generation call on the
`credit_card_bills` table (an external collaborator, taken as opaque). -/
structure Env where
  insertFails : Nat → Option String
  deleteFails : Nat → Option String
  billFails : Nat → Option String
  billGen : Nat → List Bill → List Bill

/-- The `INSERT INTO credit_card_purchases … VALUES …` row built from a
flagged transaction (migration lines 33–53). -/
def mkPurchase (pid : Nat) (t : Txn) : Purchase :=
  { id := pid
    card_id := t.credit_card_id.getD 0
    description := t.description.getD "Compra migrada"
    amount := t.amount
    purchase_date := t.date
    installments := 1
    installment_amount := t.amount
    is_installment := false
    category_id := t.category_id
    transaction_id := some t.id }

/-- Loop state: the database plus the PL/pgSQL variables `fixed_count`,
`created_count` and `errors_array`.  An error entry is kept structured as
(transaction id, SQLERRM); the source renders it with
`format('Erro ao processar transação %s: %s', …)`. -/
structure FixState where
  db : DB
  fixed_count : Nat
  created_count : Nat
  errors_array : List (Nat × String)
deriving Repr

/-- The rendered `TEXT[]` entry of the source's error array. -/
def renderError (e : Nat × String) : String :=
  "Erro ao processar transação " ++ toString e.1 ++ ": " ++ e.2

/-- One iteration of the loop body (migration lines 31–69).  The statement
order is: INSERT; `created_count := created_count + 1`; DELETE;
`fixed_count := fixed_count + 1`; PERFORM bill generation.  On any raise the
`EXCEPTION WHEN OTHERS` handler rolls the subtransaction back — undoing the
block's table changes but not the variable assignments already performed —
and appends the formatted error. -/
def processRow (env : Env) (s : FixState) (t : Txn) : FixState :=
  match env.insertFails t.id with
  | some msg =>
    { s with errors_array := s.errors_array ++ [(t.id, msg)] }
  | none =>
    let db1 : DB :=
      { s.db with
          purchases := s.db.purchases ++ [mkPurchase s.db.nextPurchaseId t]
          nextPurchaseId := s.db.nextPurchaseId + 1 }
    match env.deleteFails t.id with
    | some msg =>
      { s with
          db := { s.db with nextPurchaseId := db1.nextPurchaseId }
          created_count := s.created_count + 1
          errors_array := s.errors_array ++ [(t.id, msg)] }
    | none =>
      let db2 : DB :=
        { db1 with transactions := db1.transactions.filter fun x => x.id != t.id }
      match env.billFails t.id with
      | some msg =>
        { s with
            db := { s.db with nextPurchaseId := db1.nextPurchaseId }
            created_count := s.created_count + 1
            fixed_count := s.fixed_count + 1
            errors_array := s.errors_array ++ [(t.id, msg)] }
      | none =>
        { db := { db2 with bills := env.billGen (t.credit_card_id.getD 0) db2.bills }
          created_count := s.created_count + 1
          fixed_count := s.fixed_count + 1
          errors_array := s.errors_array }

/-- `COALESCE(SUM(remaining_amount), 0)` over the card's open/closed/overdue
bills (migration lines 75–80). -/
def usedLimitFrom (bills : List Bill) (cid : Nat) : Int :=
  (bills.filter fun b =>
      b.card_id == cid &&
        (b.status == BillStatus.opened || b.status == BillStatus.closed ||
          b.status == BillStatus.overdue)).foldl
    (fun acc b => acc + b.remaining_amount) 0

/-- `SELECT DISTINCT credit_card_id FROM poupeja_transactions WHERE
credit_card_id IS NOT NULL` — membership is what matters, duplicates are
irrelevant to `IN`. -/
def affectedCardIds (db : DB) : List Nat :=
  db.transactions.filterMap fun t => t.credit_card_id

/-- The final sweep (migration lines 72–89): the first `UPDATE` recomputes
`used_limit` for cards referenced by a remaining credit-card-linked
transaction; the second `UPDATE credit_cards SET available_limit =
total_limit - used_limit` has no `WHERE` clause and touches every card. -/
def recalcSweep (db : DB) : DB :=
  let cards1 := db.cards.map fun c =>
    if (affectedCardIds db).contains c.id then
      { c with used_limit := usedLimitFrom db.bills c.id }
    else c
  let cards2 := cards1.map fun c =>
    { c with available_limit := c.total_limit - c.used_limit }
  { db with cards := cards2 }

/-- The `RETURNS TABLE` row of `fix_credit_card_transactions`.  The `TEXT[]`
entries are `renderError` applied to the structured pairs. -/
structure FixResult where
  fixed_transactions : Nat
  created_purchases : Nat
  errors : List (Nat × String)
deriving DecidableEq, Repr

/-- The whole routine `fix_credit_card_transactions`: iterate the loop body
over the flagged snapshot, then run the limit sweep, and return the
counters with the collected errors. -/
def fix_credit_card_transactions (env : Env) (db : DB) : FixResult × DB :=
  let s := (flaggedRows db).foldl (processRow env) ⟨db, 0, 0, []⟩
  let db2 := recalcSweep s.db
  (⟨s.fixed_count, s.created_count, s.errors_array⟩, db2)

/-- The `RAISE EXCEPTION` message of the insertion-guard trigger. -/
def guardMessage : String :=
  "Transações com cartão de crédito devem ser criadas através do serviço de transações, não diretamente na tabela. Use transactionService.addTransaction() ou crie uma compra de cartão em credit_card_purchases."

/-- The trigger function `prevent_direct_credit_card_transactions`
(migration lines 96–108), attached BEFORE INSERT on `poupeja_transactions`
by migration `20250923150936`: raise on a credit-card expense, otherwise
`RETURN NEW` unchanged. -/
def prevent_direct_credit_card_transactions (NEW : Txn) : Except String Txn :=
  if NEW.type == TxnType.expense && NEW.credit_card_id.isSome then
    Except.error guardMessage
  else
    Except.ok NEW

/-! ### Closed forms for the loop -/

/-- The `INSERT` of this row's block runs without raising. -/
def insOk (env : Env) (t : Txn) : Bool :=
  (env.insertFails t.id).isNone

/-- Both the `INSERT` and the `DELETE` of this row's block run without
raising (the condition under which `fixed_count` is incremented). -/
def delOk (env : Env) (t : Txn) : Bool :=
  (env.insertFails t.id).isNone && (env.deleteFails t.id).isNone

/-- The whole block runs without raising, so its table changes persist. -/
def rowOk (env : Env) (t : Txn) : Bool :=
  (env.insertFails t.id).isNone && (env.deleteFails t.id).isNone &&
    (env.billFails t.id).isNone

/-- The first error raised while processing this row, if any. -/
def rowErr (env : Env) (t : Txn) : Option String :=
  match env.insertFails t.id with
  | some m => some m
  | none =>
    match env.deleteFails t.id with
    | some m => some m
    | none => env.billFails t.id

/-- Ids of the rows whose deletion persists. -/
def delIds (env : Env) (R : List Txn) : List Nat :=
  (R.filter (rowOk env)).map fun t => t.id

/-- Purchases that persist after processing the rows `R`, starting from
sequence value `nid`: one `mkPurchase` per fully successful row; rows whose
insert ran but was rolled back still consume a sequence value. -/
def purchasesAfter (env : Env) : Nat → List Txn → List Purchase
  | _, [] => []
  | nid, t :: R =>
    if rowOk env t then mkPurchase nid t :: purchasesAfter env (nid + 1) R
    else if insOk env t then purchasesAfter env (nid + 1) R
    else purchasesAfter env nid R

/-- The error entries collected while processing the rows `R`, in order. -/
def errorsAfter (env : Env) : List Txn → List (Nat × String)
  | [] => []
  | t :: R =>
    match rowErr env t with
    | some m => (t.id, m) :: errorsAfter env R
    | none => errorsAfter env R

/-- Well-formedness of a database state: `poupeja_transactions.id` and
`credit_cards.id` are primary keys. -/
def WF (db : DB) : Prop :=
  (db.transactions.map Txn.id).Nodup ∧ (db.cards.map CreditCard.id).Nodup

instance (db : DB) : Decidable (WF db) := by
  unfold WF; infer_instance

/-! ### Concrete fixtures used by witnesses and counterexamples -/

/-- An environment in which every step succeeds and bill generation leaves
the bills table unchanged. -/
def envOk : Env :=
  { insertFails := fun _ => none
    deleteFails := fun _ => none
    billFails := fun _ => none
    billGen := fun _ bs => bs }

/-- An environment in which processing transaction 1 fails at the
`INSERT` step. -/
def envInsFail : Env :=
  { insertFails := fun i => if i == 1 then some "insert error" else none
    deleteFails := fun _ => none
    billFails := fun _ => none
    billGen := fun _ bs => bs }

/-- An environment in which transaction 1's insert and delete succeed but
`auto_generate_credit_card_bills` raises. -/
def envBillFail : Env :=
  { insertFails := fun _ => none
    deleteFails := fun _ => none
    billFails := fun i => if i == 1 then some "bill error" else none
    billGen := fun _ bs => bs }

def exCard1 : CreditCard :=
  { id := 1, user_id := 10, total_limit := 1000, used_limit := 0, available_limit := 1000 }

/-- The spec's scenario row: a credit-card expense misfiled in
`poupeja_transactions`. -/
def exTxn1 : Txn :=
  { id := 1, type := TxnType.expense, amount := 150, date := "2025-09-01"
    description := some "Market", category_id := none, account_id := none
    credit_card_id := some 1, user_id := 10 }

/-- A second flagged row on the same card. -/
def exTxn3 : Txn :=
  { id := 3, type := TxnType.expense, amount := 40, date := "2025-09-02"
    description := none, category_id := some 7, account_id := none
    credit_card_id := some 1, user_id := 10 }

def exDB1 : DB :=
  { transactions := [exTxn1], purchases := [], cards := [exCard1]
    bills := [], nextPurchaseId := 100 }

def exDB2 : DB :=
  { transactions := [exTxn1, exTxn3], purchases := [], cards := [exCard1]
    bills := [], nextPurchaseId := 100 }

/-- A legacy credit-card expense that already has a corresponding purchase
row, so the scanner skips it. -/
def exTxn2 : Txn :=
  { id := 2, type := TxnType.expense, amount := 80, date := "2025-09-03"
    description := some "Legacy", category_id := none, account_id := none
    credit_card_id := some 1, user_id := 10 }

/-- The purchase row already referencing `exTxn2`. -/
def exPurch2 : Purchase :=
  { id := 50, card_id := 1, description := "Legacy", amount := 80
    purchase_date := "2025-09-03", installments := 1, installment_amount := 80
    is_installment := false, category_id := none, transaction_id := some 2 }

def exDB4 : DB :=
  { transactions := [exTxn2], purchases := [exPurch2], cards := [exCard1]
    bills := [], nextPurchaseId := 0 }

/-- A card referenced by no remaining transaction, whose stored
`available_limit` disagrees with `total_limit - used_limit`. -/
def exCard9 : CreditCard :=
  { id := 9, user_id := 10, total_limit := 100, used_limit := 30
    available_limit := 999 }

def exDB6 : DB :=
  { transactions := [], purchases := [], cards := [exCard9]
    bills := [], nextPurchaseId := 0 }

/-! ### The create-transaction request handler

Embedding of `supabase/functions/create-transaction/index.ts`.  Ids on this
boundary are strings (UUIDs) exactly as the handler passes them around;
rows created by inserts get ids from `HandlerDB.nextId`.  JavaScript
truthiness of the request fields is modelled explicitly: a missing string
and the empty string are falsy, a missing number and `0` are falsy. -/

/-- The columns of `credit_cards` the handler selects (`id, user_id`). -/
structure HCard where
  id : String
  user_id : String
deriving DecidableEq, Repr

/-- The row the handler inserts into `credit_card_purchases`. -/
structure HPurchase where
  id : Nat
  card_id : String
  description : String
  amount : Int
  purchase_date : String
  installments : Nat
  installment_amount : Int
  is_installment : Bool
  category_id : Option String
deriving DecidableEq, Repr

/-- A row of `poupeja_categories` as queried by the handler. -/
structure HCategory where
  id : String
  name : String
  type : String
  user_id : String
deriving DecidableEq, Repr

/-- The row the handler inserts into `poupeja_transactions` on the regular
path (note: no `credit_card_id` field is ever included). -/
structure HTxn where
  id : Nat
  type : String
  amount : Int
  category_id : String
  description : String
  date : Option String
  goal_id : Option String
  account_id : Option String
  user_id : String
deriving DecidableEq, Repr

/-- The tables the handler touches, plus the id sequence for inserts. -/
structure HandlerDB where
  credit_cards : List HCard
  credit_card_purchases : List HPurchase
  poupeja_transactions : List HTxn
  poupeja_categories : List HCategory
  nextId : Nat
deriving DecidableEq, Repr

/-- The parsed JSON body (`TransactionRequest` in the source); every field
may be absent. -/
structure TransactionRequest where
  type : Option String
  amount : Option Int
  category_id : Option String
  category : Option String
  description : Option String
  date : Option String
  goal_id : Option String
  account_id : Option String
  credit_card_id : Option String
  user_id : Option String
deriving DecidableEq, Repr

/-- Storage/collaborator failures the handler can observe: the two
`insert` calls can fail with a message; the `auto_generate_credit_card_bills`
and `update_goal_amount` RPC errors are logged by the handler and ignored
(their effects live outside this state). -/
structure HEnv where
  purchaseInsertFails : Option String
  transactionInsertFails : Option String
  billGenFails : Bool
  goalRpcFails : Bool

/-- The JSON response bodies the handler produces, collapsed to the fields
the claims are about (`type` + id on success, `error` on failure). -/
inductive RespBody
| empty
| err (msg : String)
| okPurchase (purchase_id : Nat)
| okTransaction (transaction_id : Nat)
deriving DecidableEq, Repr

structure HResp where
  status : Nat
  body : RespBody
deriving DecidableEq, Repr

/-- JavaScript truthiness of an optional string (`undefined` and `""` are
falsy). -/
def truthyStr (o : Option String) : Bool :=
  match o with
  | some s => s != ""
  | none => false

/-- JavaScript truthiness of an optional number (`undefined` and `0` are
falsy). -/
def truthyInt (o : Option Int) : Bool :=
  match o with
  | some n => n != 0
  | none => false

/-- `x || dflt` for an optional string. -/
def strOr (o : Option String) (dflt : String) : String :=
  match o with
  | some s => if s == "" then dflt else s
  | none => dflt

/-- `x || null` for an optional string. -/
def strOrNone (o : Option String) : Option String :=
  match o with
  | some s => if s == "" then none else some s
  | none => none

/-- `.from('credit_cards').select('id, user_id').eq('id', cid)
.eq('user_id', uid).single()`; ids are a primary key, so at most one row
matches. -/
def findCard (cards : List HCard) (cid uid : String) : Option HCard :=
  cards.find? fun c => c.id == cid && c.user_id == uid

/-- Category lookup by name, type and user. -/
def findCategoryByName (cats : List HCategory) (name ty uid : String) :
    Option HCategory :=
  cats.find? fun c => c.name == name && c.type == ty && c.user_id == uid

/-- The regular path's category resolution: explicit `category_id` if
truthy, else lookup by `category` name, else the user's `Outros` fallback;
`none` means no category could be resolved (the 400 branch). -/
def resolveCategoryId (db : HandlerDB) (req : TransactionRequest) :
    Option String :=
  let c1 :=
    if !truthyStr req.category_id && truthyStr req.category then
      match findCategoryByName db.poupeja_categories (req.category.getD "")
          (req.type.getD "") (req.user_id.getD "") with
      | some cat => some cat.id
      | none => req.category_id
    else req.category_id
  if truthyStr c1 then c1
  else
    match findCategoryByName db.poupeja_categories "Outros"
        (req.type.getD "") (req.user_id.getD "") with
    | some cat => some cat.id
    | none => none

/-- The `Deno.serve` handler of `create-transaction/index.ts`.  Statement
order follows the source: CORS preflight, method check, required-field
validation (`user_id`, `type`, `amount` — `date` is not checked), then
either the credit-card-purchase branch (card ownership check, purchase
insert, non-fatal bill generation) or the regular-transaction branch
(category resolution, transaction insert, non-fatal goal update).  On the
credit-card branch the payload evaluates `transactionData.date.split('T')[0]`
before the insert; with `date` absent this throws and the top-level catch
returns a 500 `Internal server error`. -/
def handleCreateTransaction (env : HEnv) (db : HandlerDB) (method : String)
    (req : TransactionRequest) : HResp × HandlerDB :=
  if method == "OPTIONS" then (⟨200, RespBody.empty⟩, db)
  else if method != "POST" then (⟨405, RespBody.err "Method not allowed"⟩, db)
  else if !(truthyStr req.user_id && truthyStr req.type && truthyInt req.amount) then
    (⟨400, RespBody.err "Missing required fields: user_id, type, amount"⟩, db)
  else if req.type == some "expense" && truthyStr req.credit_card_id then
    let cid := req.credit_card_id.getD ""
    let uid := req.user_id.getD ""
    match findCard db.credit_cards cid uid with
    | none => (⟨403, RespBody.err "Invalid credit card or access denied"⟩, db)
    | some _ =>
      match req.date with
      | none => (⟨500, RespBody.err "Internal server error"⟩, db)
      | some d =>
        match env.purchaseInsertFails with
        | some _ =>
          (⟨500, RespBody.err "Failed to create credit card purchase"⟩, db)
        | none =>
          let p : HPurchase :=
            { id := db.nextId
              card_id := cid
              description := strOr req.description "Compra via n8n"
              amount := req.amount.getD 0
              purchase_date := (d.splitOn "T").headD d
              installments := 1
              installment_amount := req.amount.getD 0
              is_installment := false
              category_id := req.category_id }
          let db1 :=
            { db with
                credit_card_purchases := db.credit_card_purchases ++ [p]
                nextId := db.nextId + 1 }
          (⟨200, RespBody.okPurchase p.id⟩, db1)
  else
    match resolveCategoryId db req with
    | none =>
      (⟨400, RespBody.err ("No valid category found for " ++ req.type.getD "")⟩,
        db)
    | some catId =>
      match env.transactionInsertFails with
      | some _ => (⟨500, RespBody.err "Failed to create transaction"⟩, db)
      | none =>
        let t : HTxn :=
          { id := db.nextId
            type := req.type.getD ""
            amount := req.amount.getD 0
            category_id := catId
            description := strOr req.description ""
            date := req.date
            goal_id := strOrNone req.goal_id
            account_id := strOrNone req.account_id
            user_id := req.user_id.getD "" }
        let db1 :=
          { db with
              poupeja_transactions := db.poupeja_transactions ++ [t]
              nextId := db.nextId + 1 }
        (⟨200, RespBody.okTransaction t.id⟩, db1)

/-! Handler fixtures. -/

def hexCard : HCard := { id := "c1", user_id := "u1" }

def hexDB : HandlerDB :=
  { credit_cards := [hexCard], credit_card_purchases := []
    poupeja_transactions := [], poupeja_categories := [], nextId := 1 }

def hexEnvOk : HEnv :=
  { purchaseInsertFails := none, transactionInsertFails := none
    billGenFails := false, goalRpcFails := false }

/-- The spec scenario request: credit-card expense of 50 on card c1 by
user u1. -/
def hexReqOk : TransactionRequest :=
  { type := some "expense", amount := some 50, category_id := none
    category := none, description := none
    date := some "2025-09-01T12:00:00", goal_id := none, account_id := none
    credit_card_id := some "c1", user_id := some "u1" }

/-- The same request with a falsy amount: it fails required-field
validation before the ownership check. -/
def hexReqZeroAmount : TransactionRequest :=
  { hexReqOk with amount := some 0 }

/-- The same request with the `date` field omitted. -/
def hexReqNoDate : TransactionRequest :=
  { hexReqOk with date := none }

/-! ### Characterization of the migration loop

Each lemma describes one component of the state after folding `processRow`
over an arbitrary row list, by induction on the list with the start state
generalized. -/

theorem rowOk_iff_rowErr_none (env : Env) (t : Txn) :
    rowOk env t = true ↔ rowErr env t = none := by
  unfold rowOk rowErr
  cases h1 : env.insertFails t.id <;>
    cases h2 : env.deleteFails t.id <;>
      cases h3 : env.billFails t.id <;> simp

theorem foldl_errors (env : Env) (R : List Txn) (s : FixState) :
    (R.foldl (processRow env) s).errors_array =
      s.errors_array ++ errorsAfter env R := by
  induction R generalizing s with
  | nil => simp [errorsAfter]
  | cons t R ih =>
    rw [List.foldl_cons, ih]
    cases h1 : env.insertFails t.id with
    | some m => simp [processRow, h1, errorsAfter, rowErr]
    | none =>
      cases h2 : env.deleteFails t.id with
      | some m => simp [processRow, h1, h2, errorsAfter, rowErr]
      | none =>
        cases h3 : env.billFails t.id with
        | some m => simp [processRow, h1, h2, h3, errorsAfter, rowErr]
        | none => simp [processRow, h1, h2, h3, errorsAfter, rowErr]

theorem foldl_created (env : Env) (R : List Txn) (s : FixState) :
    (R.foldl (processRow env) s).created_count =
      s.created_count + (R.filter (insOk env)).length := by
  induction R generalizing s with
  | nil => simp
  | cons t R ih =>
    rw [List.foldl_cons, ih]
    cases h1 : env.insertFails t.id with
    | some m => simp [processRow, h1, insOk]
    | none =>
      cases h2 : env.deleteFails t.id with
      | some m => simp [processRow, h1, h2, insOk]; omega
      | none =>
        cases h3 : env.billFails t.id with
        | some m => simp [processRow, h1, h2, h3, insOk]; omega
        | none => simp [processRow, h1, h2, h3, insOk]; omega

theorem foldl_fixed (env : Env) (R : List Txn) (s : FixState) :
    (R.foldl (processRow env) s).fixed_count =
      s.fixed_count + (R.filter (delOk env)).length := by
  induction R generalizing s with
  | nil => simp
  | cons t R ih =>
    rw [List.foldl_cons, ih]
    cases h1 : env.insertFails t.id with
    | some m => simp [processRow, h1, delOk]
    | none =>
      cases h2 : env.deleteFails t.id with
      | some m => simp [processRow, h1, h2, delOk]
      | none =>
        cases h3 : env.billFails t.id with
        | some m => simp [processRow, h1, h2, h3, delOk]; omega
        | none => simp [processRow, h1, h2, h3, delOk]; omega

theorem foldl_cards (env : Env) (R : List Txn) (s : FixState) :
    (R.foldl (processRow env) s).db.cards = s.db.cards := by
  induction R generalizing s with
  | nil => simp
  | cons t R ih =>
    rw [List.foldl_cons, ih]
    cases h1 : env.insertFails t.id with
    | some m => simp [processRow, h1]
    | none =>
      cases h2 : env.deleteFails t.id with
      | some m => simp [processRow, h1, h2]
      | none =>
        cases h3 : env.billFails t.id with
        | some m => simp [processRow, h1, h2, h3]
        | none => simp [processRow, h1, h2, h3]

theorem foldl_nextPurchaseId (env : Env) (R : List Txn) (s : FixState) :
    (R.foldl (processRow env) s).db.nextPurchaseId =
      s.db.nextPurchaseId + (R.filter (insOk env)).length := by
  induction R generalizing s with
  | nil => simp
  | cons t R ih =>
    rw [List.foldl_cons, ih]
    cases h1 : env.insertFails t.id with
    | some m => simp [processRow, h1, insOk]
    | none =>
      cases h2 : env.deleteFails t.id with
      | some m => simp [processRow, h1, h2, insOk]; omega
      | none =>
        cases h3 : env.billFails t.id with
        | some m => simp [processRow, h1, h2, h3, insOk]; omega
        | none => simp [processRow, h1, h2, h3, insOk]; omega

theorem foldl_purchases (env : Env) (R : List Txn) (s : FixState) :
    (R.foldl (processRow env) s).db.purchases =
      s.db.purchases ++ purchasesAfter env s.db.nextPurchaseId R := by
  induction R generalizing s with
  | nil => simp [purchasesAfter]
  | cons t R ih =>
    rw [List.foldl_cons, ih]
    cases h1 : env.insertFails t.id with
    | some m =>
      simp [processRow, h1, purchasesAfter, rowOk, insOk]
    | none =>
      cases h2 : env.deleteFails t.id with
      | some m =>
        simp [processRow, h1, h2, purchasesAfter, rowOk, insOk]
      | none =>
        cases h3 : env.billFails t.id with
        | some m =>
          simp [processRow, h1, h2, h3, purchasesAfter, rowOk, insOk]
        | none =>
          simp [processRow, h1, h2, h3, purchasesAfter, rowOk, insOk]

theorem foldl_transactions (env : Env) (R : List Txn) (s : FixState) :
    (R.foldl (processRow env) s).db.transactions =
      s.db.transactions.filter fun x => !(delIds env R).contains x.id := by
  induction R generalizing s with
  | nil => simp [delIds]
  | cons t R ih =>
    rw [List.foldl_cons, ih]
    by_cases hok : rowOk env t = true
    · have hok' := hok
      unfold rowOk at hok'
      simp only [Bool.and_eq_true, Option.isNone_iff_eq_none] at hok'
      have h1 : env.insertFails t.id = none := hok'.1.1
      have h2 : env.deleteFails t.id = none := hok'.1.2
      have h3 : env.billFails t.id = none := hok'.2
      have hd : delIds env (t :: R) = t.id :: delIds env R := by
        simp [delIds, hok]
      rw [hd]
      simp only [processRow, h1, h2, h3]
      rw [List.filter_filter]
      apply List.filter_congr
      intro x _
      by_cases hx : x.id = t.id <;> simp [hx, List.contains_cons, Bool.and_comm]
    · have hd : delIds env (t :: R) = delIds env R := by
        simp [delIds, hok]
      rw [hd]
      cases h1 : env.insertFails t.id with
      | some m => simp [processRow, h1]
      | none =>
        cases h2 : env.deleteFails t.id with
        | some m => simp [processRow, h1, h2]
        | none =>
          cases h3 : env.billFails t.id with
          | some m => simp [processRow, h1, h2, h3]
          | none =>
            exact absurd (by simp [rowOk, h1, h2, h3]) hok

/-! ### Support lemmas about the closed forms -/

theorem mem_delIds (env : Env) (R : List Txn) (i : Nat) :
    i ∈ delIds env R ↔ ∃ t ∈ R, rowOk env t = true ∧ t.id = i := by
  simp only [delIds, List.mem_map, List.mem_filter]
  constructor
  · rintro ⟨t, ⟨ht, hok⟩, rfl⟩; exact ⟨t, ht, hok, rfl⟩
  · rintro ⟨t, ht, hok, rfl⟩; exact ⟨t, ⟨ht, hok⟩, rfl⟩

theorem mem_errorsAfter_of (env : Env) (R : List Txn) (t : Txn) (m : String)
    (ht : t ∈ R) (hm : rowErr env t = some m) :
    (t.id, m) ∈ errorsAfter env R := by
  induction R with
  | nil => cases ht
  | cons u R ih =>
    rcases List.mem_cons.mp ht with rfl | ht'
    · simp [errorsAfter, hm]
    · cases hu : rowErr env u with
      | some m' => simp [errorsAfter, hu, ih ht']
      | none => simp [errorsAfter, hu, ih ht']

theorem of_mem_errorsAfter (env : Env) (R : List Txn) (e : Nat × String)
    (he : e ∈ errorsAfter env R) :
    ∃ t ∈ R, t.id = e.1 ∧ rowErr env t = some e.2 := by
  induction R with
  | nil => simp [errorsAfter] at he
  | cons u R ih =>
    cases hu : rowErr env u with
    | some m =>
      rw [errorsAfter, hu] at he
      rcases List.mem_cons.mp he with rfl | he'
      · exact ⟨u, List.mem_cons_self u R, rfl, hu⟩
      · obtain ⟨t, ht, h⟩ := ih he'
        exact ⟨t, List.mem_cons_of_mem u ht, h⟩
    | none =>
      rw [errorsAfter, hu] at he
      obtain ⟨t, ht, h⟩ := ih he
      exact ⟨t, List.mem_cons_of_mem u ht, h⟩

theorem errorsAfter_eq_nil (env : Env) (R : List Txn)
    (h : errorsAfter env R = []) :
    ∀ t ∈ R, rowErr env t = none := by
  intro t ht
  cases hm : rowErr env t with
  | none => rfl
  | some m =>
    have := mem_errorsAfter_of env R t m ht hm
    rw [h] at this
    cases this

theorem mem_purchasesAfter_of (env : Env) (R : List Txn) (t : Txn)
    (ht : t ∈ R) (hok : rowOk env t = true) :
    ∀ nid, ∃ n, mkPurchase n t ∈ purchasesAfter env nid R := by
  induction R with
  | nil => cases ht
  | cons u R ih =>
    intro nid
    rcases List.mem_cons.mp ht with rfl | ht'
    · exact ⟨nid, by simp [purchasesAfter, hok]⟩
    · by_cases hu : rowOk env u = true
      · obtain ⟨n, hn⟩ := ih ht' (nid + 1)
        exact ⟨n, by simp [purchasesAfter, hu]; exact Or.inr hn⟩
      · by_cases hui : insOk env u = true
        · obtain ⟨n, hn⟩ := ih ht' (nid + 1)
          exact ⟨n, by simp [purchasesAfter, hu, hui]; exact hn⟩
        · obtain ⟨n, hn⟩ := ih ht' nid
          exact ⟨n, by simp [purchasesAfter, hu, hui]; exact hn⟩

theorem of_mem_purchasesAfter (env : Env) (R : List Txn) (p : Purchase) :
    ∀ nid, p ∈ purchasesAfter env nid R →
      ∃ t ∈ R, rowOk env t = true ∧ ∃ n, p = mkPurchase n t := by
  induction R with
  | nil => intro nid hp; simp [purchasesAfter] at hp
  | cons u R ih =>
    intro nid hp
    by_cases hu : rowOk env u = true
    · rw [purchasesAfter, if_pos hu] at hp
      rcases List.mem_cons.mp hp with rfl | hp'
      · exact ⟨u, List.mem_cons_self u R, hu, nid, rfl⟩
      · obtain ⟨t, ht, h⟩ := ih (nid + 1) hp'
        exact ⟨t, List.mem_cons_of_mem u ht, h⟩
    · rw [purchasesAfter, if_neg hu] at hp
      by_cases hui : insOk env u = true
      · rw [if_pos hui] at hp
        obtain ⟨t, ht, h⟩ := ih (nid + 1) hp
        exact ⟨t, List.mem_cons_of_mem u ht, h⟩
      · rw [if_neg hui] at hp
        obtain ⟨t, ht, h⟩ := ih nid hp
        exact ⟨t, List.mem_cons_of_mem u ht, h⟩

/-! ### Accessor equations for the whole routine -/

theorem fix_errors (env : Env) (db : DB) :
    (fix_credit_card_transactions env db).1.errors =
      errorsAfter env (flaggedRows db) := by
  unfold fix_credit_card_transactions
  simpa using foldl_errors env (flaggedRows db) ⟨db, 0, 0, []⟩

theorem fix_created (env : Env) (db : DB) :
    (fix_credit_card_transactions env db).1.created_purchases =
      ((flaggedRows db).filter (insOk env)).length := by
  unfold fix_credit_card_transactions
  simpa using foldl_created env (flaggedRows db) ⟨db, 0, 0, []⟩

theorem fix_fixed (env : Env) (db : DB) :
    (fix_credit_card_transactions env db).1.fixed_transactions =
      ((flaggedRows db).filter (delOk env)).length := by
  unfold fix_credit_card_transactions
  simpa using foldl_fixed env (flaggedRows db) ⟨db, 0, 0, []⟩

theorem recalcSweep_transactions (db : DB) :
    (recalcSweep db).transactions = db.transactions := rfl

theorem recalcSweep_purchases (db : DB) :
    (recalcSweep db).purchases = db.purchases := rfl

theorem recalcSweep_bills (db : DB) :
    (recalcSweep db).bills = db.bills := rfl

theorem mem_recalcSweep_cards (db : DB) (c' : CreditCard)
    (h : c' ∈ (recalcSweep db).cards) :
    ∃ c ∈ db.cards, c'.id = c.id := by
  unfold recalcSweep at h
  simp only [List.mem_map] at h
  obtain ⟨c1, ⟨c, hc, rfl⟩, rfl⟩ := h
  refine ⟨c, hc, ?_⟩
  by_cases hcc : c.id ∈ affectedCardIds db <;> simp [hcc]

theorem fix_transactions (env : Env) (db : DB) :
    (fix_credit_card_transactions env db).2.transactions =
      db.transactions.filter
        fun x => !(delIds env (flaggedRows db)).contains x.id := by
  unfold fix_credit_card_transactions
  simpa [recalcSweep_transactions]
    using foldl_transactions env (flaggedRows db) ⟨db, 0, 0, []⟩

theorem fix_purchases (env : Env) (db : DB) :
    (fix_credit_card_transactions env db).2.purchases =
      db.purchases ++ purchasesAfter env db.nextPurchaseId (flaggedRows db) := by
  unfold fix_credit_card_transactions
  simpa [recalcSweep_purchases]
    using foldl_purchases env (flaggedRows db) ⟨db, 0, 0, []⟩

theorem fix_cards_ids (env : Env) (db : DB) (c' : CreditCard)
    (h : c' ∈ (fix_credit_card_transactions env db).2.cards) :
    ∃ c ∈ db.cards, c'.id = c.id := by
  unfold fix_credit_card_transactions at h
  obtain ⟨c, hc, hid⟩ := mem_recalcSweep_cards _ c' h
  rw [foldl_cards] at hc
  exact ⟨c, hc, hid⟩

/-! ### Lemmas about the scanner predicate -/

theorem mem_flaggedRows (db : DB) (t : Txn) :
    t ∈ flaggedRows db ↔ t ∈ db.transactions ∧ isFlagged db t = true := by
  simp [flaggedRows, List.mem_filter]

theorem isFlagged_spec (db : DB) (t : Txn) (h : isFlagged db t = true) :
    t.type = TxnType.expense ∧ t.credit_card_id.isSome = true ∧
      hasCard db.cards t = true ∧ hasPurchaseFor db.purchases t.id = false := by
  unfold isFlagged at h
  simp only [Bool.and_eq_true, beq_iff_eq, Bool.not_eq_true'] at h
  exact ⟨h.1.1.1, h.1.1.2, h.1.2, h.2⟩

/-- Two flagged rows of a well-formed database with the same id are the same
row. -/
theorem flagged_id_inj (db : DB) (hw : WF db) (t u : Txn)
    (ht : t ∈ flaggedRows db) (hu : u ∈ flaggedRows db) (hid : t.id = u.id) :
    t = u := by
  have ht' := (mem_flaggedRows db t).mp ht
  have hu' := (mem_flaggedRows db u).mp hu
  exact List.inj_on_of_nodup_map hw.1 ht'.1 hu'.1 hid

theorem not_ref_of_hasPurchaseFor_false (ps : List Purchase) (tid : Nat)
    (h : hasPurchaseFor ps tid = false) :
    ∀ p ∈ ps, p.transaction_id ≠ some tid := by
  intro p hp
  unfold hasPurchaseFor at h
  rw [List.any_eq_false] at h
  have := h p hp
  simpa using this

/-! ### Per-row outcome of the whole routine -/

/-- A flagged row whose block raises is left untouched: it survives in
`poupeja_transactions`, no purchase referencing it exists afterwards, and
its error entry is recorded. -/
theorem fix_row_failure (env : Env) (db : DB) (t : Txn) (m : String)
    (hw : WF db) (ht : t ∈ flaggedRows db) (hm : rowErr env t = some m) :
    t ∈ (fix_credit_card_transactions env db).2.transactions ∧
      (∀ p ∈ (fix_credit_card_transactions env db).2.purchases,
          p.transaction_id ≠ some t.id) ∧
      (t.id, m) ∈ (fix_credit_card_transactions env db).1.errors := by
  have hnotok : rowOk env t ≠ true := by
    intro hok
    rw [(rowOk_iff_rowErr_none env t).mp hok] at hm
    cases hm
  have hmem := (mem_flaggedRows db t).mp ht
  have hspec := isFlagged_spec db t hmem.2
  refine ⟨?_, ?_, ?_⟩
  · rw [fix_transactions]
    rw [List.mem_filter]
    refine ⟨hmem.1, ?_⟩
    simp only [Bool.not_eq_true', ← Bool.not_eq_true]
    intro hc
    simp only [List.contains, List.elem_eq_mem, decide_eq_true_iff] at hc
    obtain ⟨u, hu, huok, huid⟩ := (mem_delIds env (flaggedRows db) t.id).mp hc
    have : u = t := flagged_id_inj db hw u t hu ht huid
    exact hnotok (this ▸ huok)
  · intro p hp
    rw [fix_purchases] at hp
    rcases List.mem_append.mp hp with hp0 | hp1
    · exact not_ref_of_hasPurchaseFor_false db.purchases t.id hspec.2.2.2 p hp0
    · obtain ⟨u, hu, huok, n, rfl⟩ :=
        of_mem_purchasesAfter env (flaggedRows db) _ db.nextPurchaseId hp1
      intro hc
      have huid : u.id = t.id := by
        simpa [mkPurchase] using hc
      have : u = t := flagged_id_inj db hw u t hu ht huid
      exact hnotok (this ▸ huok)
  · rw [fix_errors]
    exact mem_errorsAfter_of env (flaggedRows db) t m ht hm

/-- A flagged row whose block completes is migrated: it is deleted from
`poupeja_transactions` and its purchase row persists. -/
theorem fix_row_success (env : Env) (db : DB) (t : Txn)
    (ht : t ∈ flaggedRows db) (hok : rowOk env t = true) :
    t ∉ (fix_credit_card_transactions env db).2.transactions ∧
      ∃ n, mkPurchase n t ∈ (fix_credit_card_transactions env db).2.purchases := by
  constructor
  · rw [fix_transactions]
    intro hc
    rw [List.mem_filter] at hc
    have hid : t.id ∈ delIds env (flaggedRows db) :=
      (mem_delIds env (flaggedRows db) t.id).mpr ⟨t, ht, hok, rfl⟩
    have := hc.2
    simp [List.contains, hid] at this
  · obtain ⟨n, hn⟩ :=
      mem_purchasesAfter_of env (flaggedRows db) t ht hok db.nextPurchaseId
    exact ⟨n, by rw [fix_purchases]; exact List.mem_append_right _ hn⟩

/-- In a well-formed database no error entry carries the id of a
successfully migrated row. -/
theorem fix_row_success_no_error (env : Env) (db : DB) (t : Txn)
    (hw : WF db) (ht : t ∈ flaggedRows db) (hok : rowOk env t = true) :
    ∀ e ∈ (fix_credit_card_transactions env db).1.errors, e.1 ≠ t.id := by
  intro e he hc
  rw [fix_errors] at he
  obtain ⟨u, hu, huid, hum⟩ := of_mem_errorsAfter env (flaggedRows db) e he
  have : u = t := flagged_id_inj db hw u t hu ht (by rw [huid, hc])
  rw [this, (rowOk_iff_rowErr_none env t).mp hok] at hum
  cases hum

theorem purchasesAfter_length (env : Env) (R : List Txn) :
    ∀ nid, (purchasesAfter env nid R).length =
      (R.filter (rowOk env)).length := by
  induction R with
  | nil => intro nid; simp [purchasesAfter]
  | cons t R ih =>
    intro nid
    by_cases hok : rowOk env t = true
    · simp [purchasesAfter, hok, ih]
    · by_cases hins : insOk env t = true
      · simp [purchasesAfter, hok, hins, ih]
      · simp [purchasesAfter, hok, hins, ih]

/-! ### The claims -/

/-- **C1.** For every flagged Transaction processed by the repair routine,
the migration is atomic and an isolated failure domain: if any step of
migrating that row fails (`rowErr env t = some m`), the error is caught and
recorded with the Transaction's identifier and the underlying error
message, neither a partially-completed state (Purchase inserted but
Transaction not deleted, or vice versa) is left behind for that row — the
row survives and no Purchase references it — and migrations of other rows
in the batch are neither aborted nor rolled back: every other flagged row
whose own steps succeed is fully migrated. -/
theorem claim_C1_row_failure_isolated (env : Env) (db : DB) (t : Txn)
    (m : String) (hw : WF db) (ht : t ∈ flaggedRows db)
    (hm : rowErr env t = some m) :
    ((t.id, m) ∈ (fix_credit_card_transactions env db).1.errors) ∧
    t ∈ (fix_credit_card_transactions env db).2.transactions ∧
    (∀ p ∈ (fix_credit_card_transactions env db).2.purchases,
        p.transaction_id ≠ some t.id) ∧
    (∀ u ∈ flaggedRows db, rowOk env u = true →
        u ∉ (fix_credit_card_transactions env db).2.transactions ∧
        ∃ p ∈ (fix_credit_card_transactions env db).2.purchases,
          p.transaction_id = some u.id) := by
  obtain ⟨h1, h2, h3⟩ := fix_row_failure env db t m hw ht hm
  refine ⟨h3, h1, h2, ?_⟩
  intro u hu huok
  obtain ⟨hu1, n, hn⟩ := fix_row_success env db u hu huok
  exact ⟨hu1, mkPurchase n u, hn, rfl⟩

/-- Witness for C1: in a database with two flagged rows (ids 1 and 3) and an
environment whose insert fails for id 1, row 1 is recorded and untouched
while row 3 is migrated. -/
theorem claim_C1_witness :
    ((exTxn1.id, "insert error") ∈
        (fix_credit_card_transactions envInsFail exDB2).1.errors) ∧
    exTxn1 ∈ (fix_credit_card_transactions envInsFail exDB2).2.transactions ∧
    (∀ p ∈ (fix_credit_card_transactions envInsFail exDB2).2.purchases,
        p.transaction_id ≠ some exTxn1.id) ∧
    (∀ u ∈ flaggedRows exDB2, rowOk envInsFail u = true →
        u ∉ (fix_credit_card_transactions envInsFail exDB2).2.transactions ∧
        ∃ p ∈ (fix_credit_card_transactions envInsFail exDB2).2.purchases,
          p.transaction_id = some u.id) :=
  claim_C1_row_failure_isolated envInsFail exDB2 exTxn1 "insert error"
    (by decide) (by decide) (by decide)

/-- **C2, counterexample.**  In `exDB1` the single flagged row's insert and
delete steps succeed and only the bill-generation call fails
(`envBillFail`).  The claim asserts that the migration's effects then
persist (Purchase exists, Transaction deleted); in fact the
`EXCEPTION WHEN OTHERS` handler rolls the whole subtransaction back: after
the routine returns there is no purchase at all and the transaction is
still present, even though both counters report 1. -/
theorem claim_C2_counterexample :
    envBillFail.insertFails exTxn1.id = none ∧
    envBillFail.deleteFails exTxn1.id = none ∧
    envBillFail.billFails exTxn1.id = some "bill error" ∧
    (fix_credit_card_transactions envBillFail exDB1).1.fixed_transactions = 1 ∧
    (fix_credit_card_transactions envBillFail exDB1).1.created_purchases = 1 ∧
    (fix_credit_card_transactions envBillFail exDB1).2.purchases = [] ∧
    exTxn1 ∈ (fix_credit_card_transactions envBillFail exDB1).2.transactions := by
  decide

/-- **C2, amended.** For a flagged row whose insert and delete succeed but
whose bill-generation call fails, the row still counts toward
`fixed_transactions` and `created_purchases` (the counter increments
survive the exception) and the failure is non-fatal to the batch, but the
migration's effects do **not** persist: the per-row exception handler rolls
back both the Purchase insertion and the Transaction deletion, the source
row survives, and an error naming it is recorded. -/
theorem claim_C2_amended (env : Env) (db : DB) (t : Txn) (m : String)
    (hw : WF db) (ht : t ∈ flaggedRows db)
    (h1 : env.insertFails t.id = none) (h2 : env.deleteFails t.id = none)
    (h3 : env.billFails t.id = some m) :
    ((fix_credit_card_transactions env db).1.created_purchases =
        ((flaggedRows db).filter (insOk env)).length ∧
      t ∈ (flaggedRows db).filter (insOk env)) ∧
    ((fix_credit_card_transactions env db).1.fixed_transactions =
        ((flaggedRows db).filter (delOk env)).length ∧
      t ∈ (flaggedRows db).filter (delOk env)) ∧
    ((t.id, m) ∈ (fix_credit_card_transactions env db).1.errors) ∧
    t ∈ (fix_credit_card_transactions env db).2.transactions ∧
    ∀ p ∈ (fix_credit_card_transactions env db).2.purchases,
      p.transaction_id ≠ some t.id := by
  have hm : rowErr env t = some m := by
    simp [rowErr, h1, h2, h3]
  obtain ⟨ha, hb, hc⟩ := fix_row_failure env db t m hw ht hm
  refine ⟨⟨fix_created env db, ?_⟩, ⟨fix_fixed env db, ?_⟩, hc, ha, hb⟩
  · exact List.mem_filter.mpr ⟨ht, by simp [insOk, h1]⟩
  · exact List.mem_filter.mpr ⟨ht, by simp [delOk, h1, h2]⟩

/-- Witness for the amended C2 at `envBillFail` / `exDB1`. -/
theorem claim_C2_witness :
    ((fix_credit_card_transactions envBillFail exDB1).1.created_purchases =
        ((flaggedRows exDB1).filter (insOk envBillFail)).length ∧
      exTxn1 ∈ (flaggedRows exDB1).filter (insOk envBillFail)) ∧
    ((fix_credit_card_transactions envBillFail exDB1).1.fixed_transactions =
        ((flaggedRows exDB1).filter (delOk envBillFail)).length ∧
      exTxn1 ∈ (flaggedRows exDB1).filter (delOk envBillFail)) ∧
    ((exTxn1.id, "bill error") ∈
        (fix_credit_card_transactions envBillFail exDB1).1.errors) ∧
    exTxn1 ∈ (fix_credit_card_transactions envBillFail exDB1).2.transactions ∧
    ∀ p ∈ (fix_credit_card_transactions envBillFail exDB1).2.purchases,
      p.transaction_id ≠ some exTxn1.id :=
  claim_C2_amended envBillFail exDB1 exTxn1 "bill error"
    (by decide) (by decide) (by decide) (by decide) (by decide)

/-- **C3, counterexample.**  With one flagged row whose bill-generation call
fails, the routine reports `fixed_transactions = 1` and
`created_purchases = 1`, yet no deletion and no insertion persisted: the
transactions table is unchanged and the purchases table is empty. -/
theorem claim_C3_counterexample :
    (fix_credit_card_transactions envBillFail exDB1).1.fixed_transactions = 1 ∧
    (fix_credit_card_transactions envBillFail exDB1).1.created_purchases = 1 ∧
    (fix_credit_card_transactions envBillFail exDB1).2.transactions =
      exDB1.transactions ∧
    (fix_credit_card_transactions envBillFail exDB1).2.purchases = [] := by
  decide

/-- **C3, amended.** `created_purchases` counts the flagged rows whose
`INSERT` statement ran without raising (even when a later step rolled the
insert back), and `fixed_transactions` counts the flagged rows whose
`INSERT` and `DELETE` both ran without raising (even when the
bill-generation step rolled them back); the number of purchase rows that
actually persist is the number of flagged rows whose whole block
succeeded. -/
theorem claim_C3_amended (env : Env) (db : DB) :
    (fix_credit_card_transactions env db).1.created_purchases =
      ((flaggedRows db).filter (insOk env)).length ∧
    (fix_credit_card_transactions env db).1.fixed_transactions =
      ((flaggedRows db).filter (delOk env)).length ∧
    (fix_credit_card_transactions env db).2.purchases.length =
      db.purchases.length + ((flaggedRows db).filter (rowOk env)).length := by
  refine ⟨fix_created env db, fix_fixed env db, ?_⟩
  rw [fix_purchases, List.length_append, purchasesAfter_length]

/-- **C4, counterexample.**  `exTxn2` is a credit-card expense that existed
when the routine started, but a purchase row referencing it already
existed, so the scanner skips it: after the run the transaction still
exists and the error list is empty, hence neither of the claim's two
branches holds ((a) requires the transaction to be gone, (b) requires an
error naming it). -/
theorem claim_C4_counterexample :
    exTxn2.type = TxnType.expense ∧
    exTxn2.credit_card_id = some 1 ∧
    exTxn2 ∈ exDB4.transactions ∧
    exTxn2 ∈ (fix_credit_card_transactions envOk exDB4).2.transactions ∧
    (fix_credit_card_transactions envOk exDB4).1.errors = [] := by
  decide

/-- **C4, amended.** For every **flagged** Transaction T (credit-card
expense whose card exists and with no purchase row referencing it) existing
when the routine starts, exactly one of the following holds afterwards:
either a Purchase with `transaction_id = T.id` exists, T is gone and no
error names T.id, or T still exists, an error entry names T.id, and no
Purchase references it. -/
theorem claim_C4_amended (env : Env) (db : DB) (t : Txn)
    (hw : WF db) (ht : t ∈ flaggedRows db) :
    ((∃ p ∈ (fix_credit_card_transactions env db).2.purchases,
          p.transaction_id = some t.id) ∧
      t ∉ (fix_credit_card_transactions env db).2.transactions ∧
      ∀ e ∈ (fix_credit_card_transactions env db).1.errors, e.1 ≠ t.id) ∨
    (t ∈ (fix_credit_card_transactions env db).2.transactions ∧
      (∃ e ∈ (fix_credit_card_transactions env db).1.errors, e.1 = t.id) ∧
      ∀ p ∈ (fix_credit_card_transactions env db).2.purchases,
        p.transaction_id ≠ some t.id) := by
  by_cases hok : rowOk env t = true
  · left
    obtain ⟨hnot, n, hn⟩ := fix_row_success env db t ht hok
    exact ⟨⟨mkPurchase n t, hn, rfl⟩, hnot,
      fix_row_success_no_error env db t hw ht hok⟩
  · right
    cases hm : rowErr env t with
    | none => exact absurd ((rowOk_iff_rowErr_none env t).mpr hm) hok
    | some m =>
      obtain ⟨ha, hb, hc⟩ := fix_row_failure env db t m hw ht hm
      exact ⟨ha, ⟨(t.id, m), hc, rfl⟩, hb⟩

/-- Witness for the amended C4 at `envOk` / `exDB1` (the success branch). -/
theorem claim_C4_witness :
    ((∃ p ∈ (fix_credit_card_transactions envOk exDB1).2.purchases,
          p.transaction_id = some exTxn1.id) ∧
      exTxn1 ∉ (fix_credit_card_transactions envOk exDB1).2.transactions ∧
      ∀ e ∈ (fix_credit_card_transactions envOk exDB1).1.errors,
        e.1 ≠ exTxn1.id) ∨
    (exTxn1 ∈ (fix_credit_card_transactions envOk exDB1).2.transactions ∧
      (∃ e ∈ (fix_credit_card_transactions envOk exDB1).1.errors,
        e.1 = exTxn1.id) ∧
      ∀ p ∈ (fix_credit_card_transactions envOk exDB1).2.purchases,
        p.transaction_id ≠ some exTxn1.id) :=
  claim_C4_amended envOk exDB1 exTxn1 (by decide) (by decide)

/-- **C5.** The insertion guard rejects (with its explanatory message)
exactly the rows with `type = expense` and a non-null `credit_card_id`; in
every other case it returns the row unchanged.  The guard is a pure
function of the candidate row, so the check has no side effects. -/
theorem claim_C5_guard (t : Txn) :
    (prevent_direct_credit_card_transactions t = Except.error guardMessage ∨
      prevent_direct_credit_card_transactions t = Except.ok t) ∧
    (prevent_direct_credit_card_transactions t = Except.error guardMessage ↔
      t.type = TxnType.expense ∧ t.credit_card_id.isSome = true) := by
  unfold prevent_direct_credit_card_transactions
  by_cases h : (t.type == TxnType.expense && t.credit_card_id.isSome) = true
  · rw [if_pos h]
    simp only [Bool.and_eq_true, beq_iff_eq] at h
    simp [h]
  · rw [if_neg h]
    simp only [Bool.and_eq_true, beq_iff_eq] at h
    constructor
    · exact Or.inr rfl
    · constructor
      · intro hh; cases hh
      · intro hh; exact absurd ⟨hh.1, hh.2⟩ h

/-- **C7.** Every successfully migrated flagged row yields a persisted
Purchase whose fields are copied as specified: card, amount, date,
single-installment defaults, category, description (with the
`'Compra migrada'` placeholder when absent) and the back-reference
`transaction_id`. -/
theorem claim_C7_purchase_fields (env : Env) (db : DB) (t : Txn)
    (ht : t ∈ flaggedRows db) (hok : rowOk env t = true) :
    ∃ p ∈ (fix_credit_card_transactions env db).2.purchases,
      p.transaction_id = some t.id ∧ some p.card_id = t.credit_card_id ∧
      p.amount = t.amount ∧ p.purchase_date = t.date ∧
      p.installments = 1 ∧ p.installment_amount = t.amount ∧
      p.is_installment = false ∧ p.category_id = t.category_id ∧
      p.description = t.description.getD "Compra migrada" := by
  obtain ⟨-, n, hn⟩ := fix_row_success env db t ht hok
  refine ⟨mkPurchase n t, hn, ?_⟩
  have hsome := (isFlagged_spec db t ((mem_flaggedRows db t).mp ht).2).2.1
  cases hcc : t.credit_card_id with
  | none => rw [hcc] at hsome; cases hsome
  | some cid => simp [mkPurchase, hcc]

/-- Witness for C7: the spec's scenario row (amount 150, date 2025-09-01,
card c1) migrated under a failure-free environment. -/
theorem claim_C7_witness :
    ∃ p ∈ (fix_credit_card_transactions envOk exDB1).2.purchases,
      p.transaction_id = some exTxn1.id ∧
      some p.card_id = exTxn1.credit_card_id ∧
      p.amount = exTxn1.amount ∧ p.purchase_date = exTxn1.date ∧
      p.installments = 1 ∧ p.installment_amount = exTxn1.amount ∧
      p.is_installment = false ∧ p.category_id = exTxn1.category_id ∧
      p.description = exTxn1.description.getD "Compra migrada" :=
  claim_C7_purchase_fields envOk exDB1 exTxn1 (by decide) (by decide)

/-- **C6, counterexample.**  `exCard9` is referenced by no remaining
credit-card-linked transaction, yet the final sweep's second `UPDATE`
(which has no `WHERE` clause) overwrites its `available_limit` from the
stored 999 to `total_limit - used_limit = 70`: the limit fields of cards
outside the affected set are **not** left unchanged. -/
theorem claim_C6_counterexample :
    affectedCardIds exDB6 = [] ∧
    exDB6.cards = [exCard9] ∧
    exCard9.available_limit = 999 ∧
    (fix_credit_card_transactions envOk exDB6).2.cards =
      [{ exCard9 with available_limit := 70 }] := by
  decide

/-- **C6, amended.** The final sweep recomputes `used_limit` exactly for
the cards referenced by some remaining credit-card-linked transaction
(cards outside that set keep their `used_limit`), and then overwrites
`available_limit := total_limit - used_limit` for **every** card in the
table, affected or not. -/
theorem claim_C6_amended (db : DB) (c : CreditCard) (hc : c ∈ db.cards) :
    ∃ c' ∈ (recalcSweep db).cards,
      c'.id = c.id ∧ c'.user_id = c.user_id ∧ c'.total_limit = c.total_limit ∧
      (c.id ∈ affectedCardIds db → c'.used_limit = usedLimitFrom db.bills c.id) ∧
      (c.id ∉ affectedCardIds db → c'.used_limit = c.used_limit) ∧
      c'.available_limit = c'.total_limit - c'.used_limit := by
  simp only [recalcSweep, List.map_map]
  refine ⟨_, List.mem_map.mpr ⟨c, hc, rfl⟩, ?_⟩
  by_cases hmem : c.id ∈ affectedCardIds db <;>
    simp [Function.comp, List.contains, hmem]

/-- Witness for the amended C6 at `exDB6` / `exCard9`. -/
theorem claim_C6_witness :
    ∃ c' ∈ (recalcSweep exDB6).cards,
      c'.id = exCard9.id ∧ c'.user_id = exCard9.user_id ∧
      c'.total_limit = exCard9.total_limit ∧
      (exCard9.id ∈ affectedCardIds exDB6 →
        c'.used_limit = usedLimitFrom exDB6.bills exCard9.id) ∧
      (exCard9.id ∉ affectedCardIds exDB6 →
        c'.used_limit = exCard9.used_limit) ∧
      c'.available_limit = c'.total_limit - c'.used_limit :=
  claim_C6_amended exDB6 exCard9 (by decide)

/-- **C9, counterexample.**  With one flagged row whose insert always
fails, the first run records the error and leaves the row flagged; running
the routine again — with nothing created in between — retries the row and
reports the error again, so the second run's result is not
`(0, 0, [])`. -/
theorem claim_C9_counterexample :
    (fix_credit_card_transactions envInsFail
        (fix_credit_card_transactions envInsFail exDB1).2).1.errors =
      [(1, "insert error")] ∧
    (fix_credit_card_transactions envInsFail exDB1).1.errors =
      [(1, "insert error")] := by
  decide

/-- **C9, amended.** If the first run reports no errors (every flagged row
was migrated), then a second run — under any environment — finds no flagged
rows and returns `fixed_transactions = 0`, `created_purchases = 0`,
`errors = []`. -/
theorem claim_C9_amended (env env' : Env) (db : DB)
    (h : (fix_credit_card_transactions env db).1.errors = []) :
    (fix_credit_card_transactions env'
        (fix_credit_card_transactions env db).2).1 =
      ⟨0, 0, []⟩ := by
  have hnil : flaggedRows (fix_credit_card_transactions env db).2 = [] := by
    rw [flaggedRows, List.filter_eq_nil_iff]
    intro x hx hfx
    have hx' := hx
    rw [fix_transactions, List.mem_filter] at hx'
    have hspec := isFlagged_spec _ x hfx
    have hflag0 : isFlagged db x = true := by
      unfold isFlagged
      have hcard : hasCard db.cards x = true := by
        have := hspec.2.2.1
        unfold hasCard at this ⊢
        rw [List.any_eq_true] at this ⊢
        obtain ⟨c', hc', hb⟩ := this
        obtain ⟨c, hcm, hid⟩ := fix_cards_ids env db c' hc'
        exact ⟨c, hcm, by rw [← hid]; exact hb⟩
      have hpur : hasPurchaseFor db.purchases x.id = false := by
        have := hspec.2.2.2
        rw [fix_purchases] at this
        unfold hasPurchaseFor at this ⊢
        rw [List.any_eq_false] at this ⊢
        intro p hp
        exact this p (List.mem_append_left _ hp)
      rw [hspec.1, hspec.2.1, hcard, hpur]
      rfl
    have hxflag : x ∈ flaggedRows db :=
      (mem_flaggedRows db x).mpr ⟨hx'.1, hflag0⟩
    have hok : rowOk env x = true := by
      rw [rowOk_iff_rowErr_none]
      rw [fix_errors] at h
      exact errorsAfter_eq_nil env (flaggedRows db) h x hxflag
    have hid : x.id ∈ delIds env (flaggedRows db) :=
      (mem_delIds env (flaggedRows db) x.id).mpr ⟨x, hxflag, hok, rfl⟩
    have := hx'.2
    simp [List.contains, hid] at this
  have e1 : (fix_credit_card_transactions env'
      (fix_credit_card_transactions env db).2).1.fixed_transactions = 0 := by
    rw [fix_fixed, hnil]; rfl
  have e2 : (fix_credit_card_transactions env'
      (fix_credit_card_transactions env db).2).1.created_purchases = 0 := by
    rw [fix_created, hnil]; rfl
  have e3 : (fix_credit_card_transactions env'
      (fix_credit_card_transactions env db).2).1.errors = [] := by
    rw [fix_errors, hnil]; rfl
  rw [show (fix_credit_card_transactions env'
        (fix_credit_card_transactions env db).2).1 =
      ⟨(fix_credit_card_transactions env'
          (fix_credit_card_transactions env db).2).1.fixed_transactions,
        (fix_credit_card_transactions env'
          (fix_credit_card_transactions env db).2).1.created_purchases,
        (fix_credit_card_transactions env'
          (fix_credit_card_transactions env db).2).1.errors⟩ from rfl,
    e1, e2, e3]

/-- Witness for the amended C9: a failure-free first run over `exDB1` has no
errors, and the second run returns the zero result. -/
theorem claim_C9_witness :
    (fix_credit_card_transactions envOk
        (fix_credit_card_transactions envOk exDB1).2).1 =
      ⟨0, 0, []⟩ :=
  claim_C9_amended envOk envOk exDB1 (by decide)

/-- **C8, counterexample.**  `hexReqZeroAmount` is a creation request with
`type = expense` and `credit_card_id` referencing a card owned by its
`user_id`, yet no Purchase row is created and the response does not report
a `credit_card_purchase`: the falsy `amount` fails the required-field
validation first and the handler returns 400 with the database untouched.
The claim's "if it is owned, a Purchase row is created" is therefore false
as universally stated. -/
theorem claim_C8_counterexample :
    (findCard hexDB.credit_cards "c1" "u1").isSome = true ∧
    hexReqZeroAmount.type = some "expense" ∧
    hexReqZeroAmount.credit_card_id = some "c1" ∧
    hexReqZeroAmount.user_id = some "u1" ∧
    (handleCreateTransaction hexEnvOk hexDB "POST" hexReqZeroAmount).1 =
      ⟨400, RespBody.err "Missing required fields: user_id, type, amount"⟩ ∧
    (handleCreateTransaction hexEnvOk hexDB "POST" hexReqZeroAmount).2 =
      hexDB := by
  decide

/-- **C8, amended.** For every POST creation request with `type = expense`,
a truthy `credit_card_id`, a truthy `user_id`, a truthy `amount` and a
`date` present: if the referenced card is not owned by the user the request
is rejected with 403 and no row is written anywhere; if it is owned and the
purchase insert succeeds, a Purchase row with that card id is appended and
the response reports the purchase with its id (status 200); and in every
case on this branch no row is inserted into the generic transaction store
`poupeja_transactions`, so the insertion guard is never triggered by this
path. -/
theorem claim_C8_amended (env : HEnv) (db : HandlerDB)
    (req : TransactionRequest) (cid uid d : String)
    (htype : req.type = some "expense")
    (hcc : req.credit_card_id = some cid) (hccne : cid ≠ "")
    (huid : req.user_id = some uid) (huidne : uid ≠ "")
    (hamt : truthyInt req.amount = true)
    (hdate : req.date = some d) :
    (findCard db.credit_cards cid uid = none →
      (handleCreateTransaction env db "POST" req).1 =
        ⟨403, RespBody.err "Invalid credit card or access denied"⟩ ∧
      (handleCreateTransaction env db "POST" req).2 = db) ∧
    ((findCard db.credit_cards cid uid).isSome = true →
      env.purchaseInsertFails = none →
      ∃ p : HPurchase,
        (handleCreateTransaction env db "POST" req).1 =
          ⟨200, RespBody.okPurchase p.id⟩ ∧
        (handleCreateTransaction env db "POST" req).2.credit_card_purchases =
          db.credit_card_purchases ++ [p] ∧
        p.card_id = cid) ∧
    (handleCreateTransaction env db "POST" req).2.poupeja_transactions =
      db.poupeja_transactions := by
  cases hfc : findCard db.credit_cards cid uid with
  | none =>
    have hh : handleCreateTransaction env db "POST" req =
        (⟨403, RespBody.err "Invalid credit card or access denied"⟩, db) := by
      simp [handleCreateTransaction, htype, hcc, huid, hamt, hdate,
        truthyStr, bne_iff_ne, hccne, huidne, hfc]
    refine ⟨fun _ => ⟨by rw [hh], by rw [hh]⟩, fun hs _ => ?_, by rw [hh]⟩
    simp at hs
  | some card =>
    cases hpi : env.purchaseInsertFails with
    | some m =>
      have hh : handleCreateTransaction env db "POST" req =
          (⟨500, RespBody.err "Failed to create credit card purchase"⟩, db) := by
        simp [handleCreateTransaction, htype, hcc, huid, hamt, hdate,
          truthyStr, bne_iff_ne, hccne, huidne, hfc, hpi]
      refine ⟨fun hn => ?_, fun _ hnone => ?_, by rw [hh]⟩
      · exact Option.noConfusion hn
      · exact Option.noConfusion hnone
    | none =>
      have hh : handleCreateTransaction env db "POST" req =
          (⟨200, RespBody.okPurchase db.nextId⟩,
            { db with
                credit_card_purchases := db.credit_card_purchases ++
                  [{ id := db.nextId, card_id := cid
                     description := strOr req.description "Compra via n8n"
                     amount := req.amount.getD 0
                     purchase_date := (d.splitOn "T").headD d
                     installments := 1
                     installment_amount := req.amount.getD 0
                     is_installment := false
                     category_id := req.category_id }]
                nextId := db.nextId + 1 }) := by
        simp [handleCreateTransaction, htype, hcc, huid, hamt, hdate,
          truthyStr, bne_iff_ne, hccne, huidne, hfc, hpi]
      refine ⟨fun hn => ?_, fun _ _ => ?_, by rw [hh]⟩
      · exact Option.noConfusion hn
      · refine ⟨⟨db.nextId, cid, strOr req.description "Compra via n8n",
            req.amount.getD 0, (d.splitOn "T").headD d, 1,
            req.amount.getD 0, false, req.category_id⟩, ?_, ?_, rfl⟩
        · rw [hh]
        · rw [hh]

/-- Witness for the amended C8 at the spec scenario request
(type expense, amount 50, card c1 owned by u1). -/
theorem claim_C8_witness :
    (findCard hexDB.credit_cards "c1" "u1" = none →
      (handleCreateTransaction hexEnvOk hexDB "POST" hexReqOk).1 =
        ⟨403, RespBody.err "Invalid credit card or access denied"⟩ ∧
      (handleCreateTransaction hexEnvOk hexDB "POST" hexReqOk).2 = hexDB) ∧
    ((findCard hexDB.credit_cards "c1" "u1").isSome = true →
      hexEnvOk.purchaseInsertFails = none →
      ∃ p : HPurchase,
        (handleCreateTransaction hexEnvOk hexDB "POST" hexReqOk).1 =
          ⟨200, RespBody.okPurchase p.id⟩ ∧
        (handleCreateTransaction hexEnvOk hexDB "POST"
            hexReqOk).2.credit_card_purchases =
          hexDB.credit_card_purchases ++ [p] ∧
        p.card_id = "c1") ∧
    (handleCreateTransaction hexEnvOk hexDB "POST"
        hexReqOk).2.poupeja_transactions =
      hexDB.poupeja_transactions :=
  claim_C8_amended hexEnvOk hexDB hexReqOk "c1" "u1" "2025-09-01T12:00:00"
    (by decide) (by decide) (by decide) (by decide) (by decide) (by decide)
    (by decide)

/-- **C10.** A POST request with `type = expense`, truthy `amount`, truthy
`user_id` and an owned `credit_card_id`, but with the `date` field omitted,
passes the required-field validation (`date` is not among the checked
fields) and then throws while the purchase payload evaluates
`transactionData.date.split('T')[0]`; the top-level catch returns status
500 with the `Internal server error` body, not a 400 validation error, and
the database is unchanged — no Purchase is created. -/
theorem claim_C10_missing_date (env : HEnv) (db : HandlerDB)
    (req : TransactionRequest) (cid uid : String)
    (htype : req.type = some "expense")
    (hcc : req.credit_card_id = some cid) (hccne : cid ≠ "")
    (huid : req.user_id = some uid) (huidne : uid ≠ "")
    (hamt : truthyInt req.amount = true)
    (hcard : (findCard db.credit_cards cid uid).isSome = true)
    (hdate : req.date = none) :
    handleCreateTransaction env db "POST" req =
      (⟨500, RespBody.err "Internal server error"⟩, db) := by
  obtain ⟨card, hfc⟩ := Option.isSome_iff_exists.mp hcard
  simp [handleCreateTransaction, htype, hcc, huid, hamt, hdate,
    truthyStr, bne_iff_ne, hccne, huidne, hfc]

/-- Witness for C10 at the scenario request with `date` removed. -/
theorem claim_C10_witness :
    handleCreateTransaction hexEnvOk hexDB "POST" hexReqNoDate =
      (⟨500, RespBody.err "Internal server error"⟩, hexDB) :=
  claim_C10_missing_date hexEnvOk hexDB hexReqNoDate "c1" "u1"
    (by decide) (by decide) (by decide) (by decide) (by decide) (by decide)
    (by decide) (by decide)

end Poupeja
